import Mathlib

/-!
Shallow embedding of the ToneShiftingBot source (`src/main.py`): a Telegram
bot that downloads the audio track of a video URL and optionally pitch-shifts
it by an integer number of semitones.

Modelling choices:
  * A filesystem path is its list of POSIX components (`FPath`); `pathlib`'s
    `.name` is the last component, `.parent` drops the last component, and
    `os.path.join` of a single-component directory with a filename is a
    two-component path.
  * The filesystem is the list of paths that currently exist.
  * External effects of the audio pipeline (the `yt_dlp` metadata probe, the
    actual download, and the librosa load / pitch-shift / write) are recorded
    as an explicit event trace.
  * Handler externals that can raise arbitrary exceptions (download stage,
    pitch stage, file open) are parameters returning `Except String`, the
    error being Python's `str(e)`.
  * Python `str.split()` / `int(...)` / list indexing are embedded as
    structurally recursive Lean functions with Python's semantics.
-/

namespace ToneShiftBot

/-- A single quote character, used inside the bot's literal reply texts. -/
def sq : String := String.singleton (Char.ofNat 39)

/-- A POSIX path, as its list of components. -/
abbrev FPath := List String

/-- `pathlib.Path(...).name`: the final path component (empty for the empty path). -/
def fname (p : FPath) : String := p.getLastD ""

/-- `pathlib.Path(...).parent`: the path with the final component removed. -/
def fparent (p : FPath) : FPath := p.dropLast

/-- `os.path.join(d, f)` for a directory given as a single component `d`:
joining with the empty string leaves the filename alone. -/
def osJoin1 (d f : String) : FPath := if d = "" then [f] else [d, f]

/-- Auxiliary worker for Python `str.split()`: split on whitespace runs,
discarding empty fragments. `acc` holds the current fragment reversed. -/
def splitWsAux : List Char → List Char → List String
  | [], acc => if acc = [] then [] else [String.mk acc.reverse]
  | c :: cs, acc =>
      if c.isWhitespace then
        (if acc = [] then [] else [String.mk acc.reverse]) ++ splitWsAux cs []
      else
        splitWsAux cs (c :: acc)

/-- Python `str.split()` with no arguments (used on the incoming message text). -/
def pySplit (s : String) : List String := splitWsAux s.toList []

/-- Split a character list at every dot, keeping empty fragments
(the behaviour of Python `str.split('.')`). -/
def splitOnDot : List Char → List Char → List String
  | [], acc => [String.mk acc.reverse]
  | c :: cs, acc =>
      if c = '.' then String.mk acc.reverse :: splitOnDot cs []
      else splitOnDot cs (c :: acc)

/-- Python `s.rsplit('.', 1)[0]`: everything before the last dot, or `s`
itself when it has no dot (used to swap the extension for `.mp3`). -/
def stripLastExt (s : String) : String :=
  match (splitOnDot s.toList []).dropLast with
  | [] => s
  | l => String.intercalate "." l

/-- Python `str.strip()`: remove surrounding whitespace. -/
def pyStrip (s : String) : String :=
  String.mk (((s.toList.dropWhile Char.isWhitespace).reverse.dropWhile
      Char.isWhitespace).reverse)

/-- Accumulate a decimal digit list into a natural number; `none` on any
non-digit character. -/
def digitsToNatAux : List Char → Nat → Option Nat
  | [], acc => some acc
  | c :: cs, acc =>
      if c.isDigit then digitsToNatAux cs (acc * 10 + (c.toNat - 48))
      else none

/-- Python `int(s)` on a string: strip whitespace, optional sign, then a
non-empty digit run; otherwise a `ValueError` whose text names the literal. -/
def pyInt (s : String) : Except String Int :=
  let t := (pyStrip s).toList
  let signed : Int × List Char :=
    match t with
    | c :: cs => if c = '-' then (-1, cs) else if c = '+' then (1, cs) else (1, t)
    | [] => (1, [])
  match signed.2 with
  | [] => .error ("invalid literal for int() with base 10: " ++ sq ++ s ++ sq)
  | _ :: _ =>
      match digitsToNatAux signed.2 0 with
      | some n => .ok (signed.1 * n)
      | none => .error ("invalid literal for int() with base 10: " ++ sq ++ s ++ sq)

/-- External effects performed by the audio pipeline. -/
inductive Ev where
  /-- `ydl.extract_info(yt_url, download=False)`: metadata probe, no transfer. -/
  | probe (url : String)
  /-- `ydl.extract_info(yt_url, download=True)`: the actual download transfer. -/
  | transfer (url : String)
  /-- `librosa.load` + `librosa.effects.pitch_shift` + `sf.write`. -/
  | loadShiftWrite (src out : FPath)
deriving DecidableEq, Repr

/-- Result of one pipeline stage: the returned path, the filesystem after the
stage, and the trace of external effects the stage performed. -/
structure StageResult where
  path : FPath
  fs : List FPath
  evs : List Ev
deriving DecidableEq, Repr

/-- The expected output filename of the download stage: the prepared filename
(from the metadata probe, abstracted as `prepare`) with its extension swapped
for `.mp3`, exactly as `filename.rsplit('.', 1)[0] + ".mp3"`. -/
def mp3Filename (prepare : String → FPath) (yt_url : String) : FPath :=
  let pf := prepare yt_url
  fparent pf ++ [stripLastExt (fname pf) ++ ".mp3"]

/-- `download_audio` from `src/main.py`: probe metadata to compute the output
filename; if that file exists return it at once, otherwise download and
return the same path. -/
def download_audio (prepare : String → FPath) (fs : List FPath)
    (yt_url : String) : StageResult :=
  let filename := mp3Filename prepare yt_url
  if filename ∈ fs then
    ⟨filename, fs, [Ev.probe yt_url]⟩
  else
    ⟨filename, filename :: fs, [Ev.probe yt_url, Ev.transfer yt_url]⟩

/-- The parenthesized semitone tag of `lower_pitch`:
`f"(ST {'+' if semitones > 0 else '-'}{abs(semitones)}) "`. -/
def stTag (semitones : Int) : String :=
  "(ST " ++ (if semitones > 0 then "+" else "-") ++ toString semitones.natAbs
    ++ ") "

/-- The output path computed by `lower_pitch`:
`os.path.join(audio_file.parent.name, f"(ST ...) {audio_file.name}")`.
Note the directory is `parent.name`, the last component of the parent. -/
def lowerPitchOutput (audio_file : FPath) (semitones : Int) : FPath :=
  osJoin1 (fname (fparent audio_file)) (stTag semitones ++ fname audio_file)

/-- `lower_pitch` from `src/main.py`: offset zero returns the input unchanged;
otherwise compute the tagged output path, return it if it already exists, else
load, pitch-shift, write, and return it. -/
def lower_pitch (fs : List FPath) (audio_file : FPath)
    (semitones : Int) : StageResult :=
  if semitones = 0 then
    ⟨audio_file, fs, []⟩
  else
    let output_file := lowerPitchOutput audio_file semitones
    if output_file ∈ fs then
      ⟨output_file, fs, []⟩
    else
      ⟨output_file, output_file :: fs, [Ev.loadShiftWrite audio_file output_file]⟩

/-- The two-stage audio pipeline as run by the free-text handler:
download, then pitch-shift the downloaded file. -/
def pipeline (prepare : String → FPath) (fs : List FPath) (yt_url : String)
    (semitones : Int) : StageResult :=
  let d := download_audio prepare fs yt_url
  let l := lower_pitch d.fs d.path semitones
  ⟨l.path, l.fs, d.evs ++ l.evs⟩

/-- A reply the bot sends back on the conversational turn: plain text
(`reply_text`) or an audio attachment (`reply_audio`). -/
inductive Reply where
  | text (s : String)
  | audio (content : String)
deriving DecidableEq, Repr

/-- The response of the HTTP GET to `https://api.telegram.org/bot.../getMe`:
its status code and the `"ok"` field of its JSON body. -/
structure GetMeResponse where
  status_code : Nat
  okField : Bool
deriving DecidableEq, Repr

/-- What `main` does after loading the token, before any listener exists. -/
inductive StartupOutcome where
  /-- The `assert query.status_code == 200` fails with this message. -/
  | assertionFailure (msg : String)
  /-- Prints the already-running notice and returns from `main` without
  building or starting the message listener. -/
  | alreadyRunningNotice
  /-- Builds the application, registers the handlers and starts polling. -/
  | startListener
deriving DecidableEq, Repr

/-- The startup logic of `main` in `src/main.py`: assert the identity query
returned HTTP 200, then return early when its JSON reports `ok`. -/
def mainStartup (q : GetMeResponse) : StartupOutcome :=
  if q.status_code = 200 then
    if q.okField then StartupOutcome.alreadyRunningNotice
    else StartupOutcome.startListener
  else StartupOutcome.assertionFailure "Querying Telegram Bot API failed."

/-- The ambient system state `load_password` consults: file existence,
`os.path.expanduser`, the `TOKEN` environment variable (`none` when unset),
the operator's `getpass` input, and the outcome of the `age` subprocess
(`.ok` its stdout, `.error` the `CalledProcessError`'s description). -/
structure SysEnv where
  pathExists : String → Bool
  expanduser : String → String
  getenvTOKEN : Option String
  getpassInput : String
  ageDecrypt : Except String String

/-- Outcome of the credential loader: a token, or the fatal
`NotImplementedError` raised on a decryption subprocess failure. -/
inductive TokenResult where
  | ok (token : String)
  | fatal (msg : String)
deriving DecidableEq, Repr

/-- `load_password` from `src/main.py`: if either the encrypted-token file or
the (tilde-expanded) private-key file is missing, fall back to the `TOKEN`
environment variable (Python's `or`, so an empty value also falls through)
and then to the interactive prompt; otherwise decrypt with `age` and strip
the result, raising a fatal error if the subprocess fails. -/
def load_password (env : SysEnv) (private_key_path token_path : String) :
    TokenResult :=
  let pkp := env.expanduser private_key_path
  if !(env.pathExists token_path) || !(env.pathExists pkp) then
    TokenResult.ok (match env.getenvTOKEN with
      | some t => if t = "" then env.getpassInput else t
      | none => env.getpassInput)
  else
    match env.ageDecrypt with
    | .ok out => TokenResult.ok (pyStrip out)
    | .error e => TokenResult.fatal e

/-- The `/start` handler's introduction line. -/
def startText : String :=
  "Send me a URL, and I" ++ sq ++ "ll download the audio for you!"

/-- The `/help` handler's usage text, verbatim from `src/main.py`. -/
def helpText : String :=
  "Your messages should have the following format:\n\n"
    ++ "https://url.to.a.yt.video semitones(optional)\n\n"
    ++ "For instance:\n\n"
    ++ sq ++ "https://url.to.a.yt.video 1" ++ sq
    ++ " will send you the video" ++ sq ++ "s audio shifted 1 semitone up.\n\n"
    ++ sq ++ "https://url.to.a.yt.video -2" ++ sq
    ++ " will send you the video" ++ sq ++ "s audio shifted 2 semitone down.\n\n"
    ++ sq ++ "https://url.to.a.yt.video" ++ sq
    ++ " will send you the video" ++ sq ++ "s original audio.\n\n"

/-- The replies sent by the `help` handler. -/
def help : List Reply := [Reply.text helpText]

/-- The replies sent by the `start` handler: the introduction, then
everything `help` sends (it ends with `await help(update, context)`). -/
def start : List Reply := Reply.text startText :: help

/-- The validation reply sent when the message has more than two tokens. -/
def invalidFormatText : String :=
  "Invalid text format. It must be a URL only or a URL plus a number indicating the tone shift."

/-- The free-text handler's fallible externals, each returning `.error` with
the Python exception's `str(e)` when it raises: `download_audio`,
`lower_pitch`, and the `open` of the processed file for sending. -/
structure HandlerExt where
  da : String → Except String FPath
  lp : FPath → Int → Except String FPath
  openAudio : FPath → Except String String

/-- The tail of the free-text handler's `try` block once the URL and the
semitone offset are known: download (replying with the downloaded name),
pitch-shift, open and send the audio. Returns the replies sent so far and
the exception, if one was raised. -/
def processFrom (ext : HandlerExt) (url : String) (semitones : Int) :
    List Reply × Option String :=
  match ext.da url with
  | .error e => ([], some e)
  | .ok audio_path =>
      let r1 := Reply.text ("Downloaded content: " ++ fname audio_path)
      match ext.lp audio_path semitones with
      | .error e => ([r1], some e)
      | .ok processed_file =>
          match ext.openAudio processed_file with
          | .error e => ([r1], some e)
          | .ok audio => ([r1, Reply.audio audio], none)

/-- The whole `try` block of `download_url`: `parts[0]` raises an IndexError
on an empty list; the offset is `int(parts[1])` only when there are exactly
two tokens, else `0`; then the download / shift / send tail. -/
def attemptBody (ext : HandlerExt) (parts : List String) :
    List Reply × Option String :=
  match parts with
  | [] => ([], some "list index out of range")
  | url :: _ =>
      match (match parts with | [_, s1] => pyInt s1 | _ => Except.ok 0) with
      | .error e => ([], some e)
      | .ok semitones => processFrom ext url semitones

/-- The `except Exception` clause: an exception becomes one error text reply. -/
def errReplies : Option String → List Reply
  | some e => [Reply.text ("Error: " ++ e)]
  | none => []

/-- Replies of a body outcome: the replies already sent, then the error
reply when an exception was caught. -/
def toReplies (p : List Reply × Option String) : List Reply :=
  p.1 ++ errReplies p.2

/-- `download_url` from `src/main.py`, as the list of replies it sends for a
message text: split the text, report (but do not abort on) more than two
tokens, then run the guarded body and convert any exception into an error
text reply. -/
def download_url (ext : HandlerExt) (t : String) : List Reply :=
  (if (pySplit t).length > 2 then [Reply.text invalidFormatText] else [])
    ++ (attemptBody ext (pySplit t)).1
    ++ errReplies (attemptBody ext (pySplit t)).2

/-! ## Stage lemmas shared by several proofs -/

/-- The download stage always returns the computed `.mp3` filename. -/
theorem download_audio_path (prepare : String → FPath) (fs : List FPath)
    (url : String) :
    (download_audio prepare fs url).path = mp3Filename prepare url := by
  unfold download_audio
  dsimp only
  split <;> rfl

/-- After the download stage, the computed filename exists. -/
theorem download_audio_mem (prepare : String → FPath) (fs : List FPath)
    (url : String) :
    mp3Filename prepare url ∈ (download_audio prepare fs url).fs := by
  unfold download_audio
  dsimp only
  split
  · assumption
  · exact List.mem_cons_self _ _

/-- The download stage never removes files. -/
theorem download_audio_mono (prepare : String → FPath) (fs : List FPath)
    (url : String) (x : FPath) (hx : x ∈ fs) :
    x ∈ (download_audio prepare fs url).fs := by
  unfold download_audio
  dsimp only
  split
  · exact hx
  · exact List.mem_cons_of_mem _ hx

/-- When the computed file already exists, the download stage only probes. -/
theorem download_audio_of_mem (prepare : String → FPath) (fs : List FPath)
    (url : String) (h : mp3Filename prepare url ∈ fs) :
    download_audio prepare fs url =
      ⟨mp3Filename prepare url, fs, [Ev.probe url]⟩ := by
  unfold download_audio
  dsimp only
  rw [if_pos h]

/-- The pitch stage never removes files. -/
theorem lower_pitch_mono (fs : List FPath) (p : FPath) (n : Int) (x : FPath)
    (hx : x ∈ fs) : x ∈ (lower_pitch fs p n).fs := by
  unfold lower_pitch
  dsimp only
  split
  · exact hx
  · split
    · exact hx
    · exact List.mem_cons_of_mem _ hx

/-- For a non-zero offset the pitch stage returns the tagged output path. -/
theorem lower_pitch_path (fs : List FPath) (p : FPath) (n : Int)
    (hn : n ≠ 0) : (lower_pitch fs p n).path = lowerPitchOutput p n := by
  unfold lower_pitch
  dsimp only
  rw [if_neg hn]
  split <;> rfl

/-- For a non-zero offset the returned path exists afterwards. -/
theorem lower_pitch_path_mem (fs : List FPath) (p : FPath) (n : Int)
    (hn : n ≠ 0) : (lower_pitch fs p n).path ∈ (lower_pitch fs p n).fs := by
  unfold lower_pitch
  dsimp only
  rw [if_neg hn]
  split
  · assumption
  · exact List.mem_cons_self _ _

/-- When the tagged output already exists, the pitch stage does nothing. -/
theorem lower_pitch_of_mem (fs : List FPath) (p : FPath) (n : Int)
    (hn : n ≠ 0) (h : lowerPitchOutput p n ∈ fs) :
    lower_pitch fs p n = ⟨lowerPitchOutput p n, fs, []⟩ := by
  unfold lower_pitch
  rw [if_neg hn, if_pos h]

/-! ## Claim theorems -/

/-- Claim C1: at startup, after loading the token, a non-200 status from the
identity endpoint makes `main` abort with the assertion failure, and a
response whose JSON reports the bot as active makes `main` print the notice
and return without building or starting the listener. -/
theorem startup_outcomes (q : GetMeResponse) :
    (q.status_code ≠ 200 →
      mainStartup q =
        StartupOutcome.assertionFailure "Querying Telegram Bot API failed.") ∧
    (q.status_code = 200 → q.okField = true →
      mainStartup q = StartupOutcome.alreadyRunningNotice ∧
      mainStartup q ≠ StartupOutcome.startListener) := by
  unfold mainStartup
  refine ⟨fun h => ?_, fun h hok => ?_⟩
  · rw [if_neg h]
  · rw [if_pos h, if_pos hok]
    exact ⟨rfl, by simp⟩

/-- Witness for C1: a 404 response aborts; a 200 response with `ok` set
yields the already-running notice. -/
theorem startup_outcomes_check :
    mainStartup ⟨404, false⟩ =
      StartupOutcome.assertionFailure "Querying Telegram Bot API failed." ∧
    mainStartup ⟨200, true⟩ = StartupOutcome.alreadyRunningNotice :=
  ⟨(startup_outcomes ⟨404, false⟩).1 (by decide),
   ((startup_outcomes ⟨200, true⟩).2 rfl rfl).1⟩

/-- Claim C3: the pitch stage at offset 0 returns the input path itself,
performs no load/transform effect, and leaves the filesystem unchanged. -/
theorem lower_pitch_zero_offset (fs : List FPath) (p : FPath) :
    (lower_pitch fs p 0).path = p ∧
    (lower_pitch fs p 0).fs = fs ∧
    (lower_pitch fs p 0).evs = [] :=
  ⟨rfl, rfl, rfl⟩

/-- Claim C9: the `/start` handler sends exactly the one-line introduction
and then, in the same turn, everything the `/help` handler sends. -/
theorem start_then_help :
    start = Reply.text startText :: help ∧ help = [Reply.text helpText] :=
  ⟨rfl, rfl⟩

/-- Claim C7: the download stage always begins with a metadata probe and
returns the prepared filename with its extension replaced by `.mp3`; if that
file already exists it is returned with no transfer and no filesystem change,
otherwise the transfer happens and the same path is returned. -/
theorem download_audio_probe_then_skip (prepare : String → FPath)
    (fs : List FPath) (url : String) :
    (download_audio prepare fs url).path = mp3Filename prepare url ∧
    (download_audio prepare fs url).evs.head? = some (Ev.probe url) ∧
    (mp3Filename prepare url ∈ fs →
      download_audio prepare fs url =
        ⟨mp3Filename prepare url, fs, [Ev.probe url]⟩) ∧
    (mp3Filename prepare url ∉ fs →
      download_audio prepare fs url =
        ⟨mp3Filename prepare url, mp3Filename prepare url :: fs,
          [Ev.probe url, Ev.transfer url]⟩) := by
  refine ⟨download_audio_path prepare fs url, ?_, fun h => download_audio_of_mem prepare fs url h, fun h => ?_⟩
  · unfold download_audio
    dsimp only
    split <;> rfl
  · unfold download_audio
    rw [if_neg h]

/-- Witness for C7: with a probe preparing `downloads/song` and an empty
filesystem, the stage downloads and returns `downloads/song.mp3`. -/
theorem download_audio_probe_then_skip_check :
    download_audio (fun _ => ["downloads", "song"]) [] "u" =
      ⟨["downloads", "song.mp3"], [["downloads", "song.mp3"]],
        [Ev.probe "u", Ev.transfer "u"]⟩ :=
  (download_audio_probe_then_skip (fun _ => ["downloads", "song"]) [] "u").2.2.2
    (by decide)

/-- Claim C8: the credential loader prefers decrypting the token file (with
surrounding whitespace stripped) when both the key and the token file exist,
raising a fatal error carrying the subprocess failure's description; when
either file is missing it uses a non-empty `TOKEN` environment variable, and
otherwise falls back to the interactive prompt. -/
theorem load_password_order (env : SysEnv) (kp tp : String) :
    (env.pathExists tp = true → env.pathExists (env.expanduser kp) = true →
      (∀ s, env.ageDecrypt = .ok s →
        load_password env kp tp = TokenResult.ok (pyStrip s)) ∧
      (∀ e, env.ageDecrypt = .error e →
        load_password env kp tp = TokenResult.fatal e)) ∧
    (env.pathExists tp = false ∨ env.pathExists (env.expanduser kp) = false →
      (∀ v, env.getenvTOKEN = some v → v ≠ "" →
        load_password env kp tp = TokenResult.ok v) ∧
      (env.getenvTOKEN = none ∨ env.getenvTOKEN = some "" →
        load_password env kp tp = TokenResult.ok env.getpassInput)) := by
  unfold load_password
  dsimp only
  constructor
  · intro ht hk
    rw [ht, hk]
    refine ⟨fun s hs => ?_, fun e he => ?_⟩
    · simp [hs]
    · simp [he]
  · intro hmiss
    have hcond : (!(env.pathExists tp) || !(env.pathExists (env.expanduser kp))) = true := by
      rcases hmiss with h | h <;> simp [h]
    rw [if_pos hcond]
    refine ⟨fun v hv hne => ?_, fun hnone => ?_⟩
    · rw [hv]
      simp [hne]
    · rcases hnone with h | h <;> simp [h]

/-- Witness for C8: with both files present and a successful decryption of
the literal `tok`, the loader returns the stripped token. -/
theorem load_password_order_check :
    load_password ⟨fun _ => true, fun s => s, none, "typed", .ok " tok "⟩
      "k" "t" = TokenResult.ok (pyStrip " tok ") :=
  ((load_password_order ⟨fun _ => true, fun s => s, none, "typed", .ok " tok "⟩
      "k" "t").1 rfl rfl).1 " tok " rfl

/-- Claim C2 counterexample: for the input `a/b/song.mp3` with offset 1 the
pitch stage computes `b/(ST +1) song.mp3` — the tag is right, but the file is
not placed in the input's directory `a/b`: the directory is only the last
component of the parent, because the source joins with `parent.name`. -/
theorem lower_pitch_same_dir_counterexample :
    (lower_pitch [] ["a", "b", "song.mp3"] 1).path =
      ["b", "(ST +1) song.mp3"] ∧
    fparent (lower_pitch [] ["a", "b", "song.mp3"] 1).path ≠
      fparent ["a", "b", "song.mp3"] := by
  decide

/-- Claim C2 as amended: for a non-zero offset, the pitch stage's output path
has filename exactly the original filename prefixed by the tag, `+N` for
positive and `-|N|` for negative offsets, but its directory is the single
component `parent.name` — the last component of the input's parent directory
(which names the same directory only when that parent is itself a single
relative component, as for the pipeline's `downloads` directory). -/
theorem lower_pitch_filename_amended (fs : List FPath) (p : FPath) (n : Int)
    (hn : n ≠ 0) (hd : fname (fparent p) ≠ "") :
    (lower_pitch fs p n).path = [fname (fparent p), stTag n ++ fname p] ∧
    fname (lower_pitch fs p n).path = stTag n ++ fname p ∧
    fparent (lower_pitch fs p n).path = [fname (fparent p)] ∧
    (0 < n → stTag n = "(ST +" ++ toString n.natAbs ++ ") ") ∧
    (n < 0 → stTag n = "(ST -" ++ toString n.natAbs ++ ") ") := by
  have hp : (lower_pitch fs p n).path = lowerPitchOutput p n :=
    lower_pitch_path fs p n hn
  have hout : lowerPitchOutput p n = [fname (fparent p), stTag n ++ fname p] := by
    unfold lowerPitchOutput osJoin1
    rw [if_neg hd]
  refine ⟨hp.trans hout, ?_, ?_, fun hpos => ?_, fun hneg => ?_⟩
  · rw [hp, hout]; rfl
  · rw [hp, hout]; rfl
  · unfold stTag
    rw [if_pos hpos]
    simp [String.append_assoc]
  · unfold stTag
    rw [if_neg (by omega : ¬ n > 0)]
    simp [String.append_assoc]

/-- Witness for the amended C2: shifting `downloads/song.mp3` by two
semitones up yields `downloads/(ST +2) song.mp3`. -/
theorem lower_pitch_filename_amended_case :
    (lower_pitch [] (["downloads", "song.mp3"] : FPath) 2).path =
      ["downloads", "(ST +2) song.mp3"] := by
  have h := lower_pitch_filename_amended [] ["downloads", "song.mp3"] 2
    (by decide) (by decide)
  rw [h.1]
  decide

/-- Claim C10: a message whose whitespace split has no tokens makes the
guarded `parts[0]` raise the IndexError, which the handler converts into the
single error text reply — for every choice of download / pitch / open
externals, so neither stage is ever consulted and no audio is sent. -/
theorem download_url_empty_message (ext : HandlerExt) (t : String)
    (h : pySplit t = []) :
    download_url ext t =
      [Reply.text ("Error: " ++ "list index out of range")] := by
  unfold download_url
  rw [h]
  rfl

/-- Witness for C10: the empty message with externals that would succeed
still yields only the IndexError reply. -/
theorem download_url_empty_message_case :
    download_url
      ⟨fun u => .ok ["downloads", u], fun f _ => .ok f, fun f => .ok (fname f)⟩
      "" = [Reply.text ("Error: " ++ "list index out of range")] :=
  download_url_empty_message
    ⟨fun u => .ok ["downloads", u], fun f _ => .ok f, fun f => .ok (fname f)⟩
    "" rfl

/-- Claim C5: whenever the guarded body of the free-text handler raises an
exception `e` — from indexing, integer parsing, the download stage, the
pitch stage, or the file open — the handler still returns a plain reply list
(it cannot propagate an exception, being a total function into `List Reply`),
consisting of the replies already sent followed by the text reply
`Error: {str(e)}`. -/
theorem download_url_catches (ext : HandlerExt) (t e : String)
    (h : (attemptBody ext (pySplit t)).2 = some e) :
    download_url ext t =
      (if (pySplit t).length > 2 then [Reply.text invalidFormatText] else [])
        ++ (attemptBody ext (pySplit t)).1
        ++ [Reply.text ("Error: " ++ e)] := by
  unfold download_url
  rw [h]
  rfl

/-- Witness for C5: a download stage that raises `boom` on the message `u`
produces exactly the reply `Error: boom`. -/
theorem download_url_catches_case :
    download_url ⟨fun _ => .error "boom", fun f _ => .ok f, fun f => .ok (fname f)⟩
      "u" = [Reply.text ("Error: " ++ "boom")] :=
  download_url_catches
    ⟨fun _ => .error "boom", fun f _ => .ok f, fun f => .ok (fname f)⟩
    "u" "boom" rfl

/-- Handler externals that make the offset observable in the sent audio:
the pitch stage returns the path `z` for offset 0 and `nz` otherwise. -/
def extProbe : HandlerExt :=
  ⟨fun u => .ok ["downloads", u],
   fun _ n => .ok [if n = 0 then "z" else "nz"],
   fun f => .ok (fname f)⟩

/-- Claim C6 counterexample: on the three-token message `u 5 x` the handler
does send the validation reply and keeps going, but it does not use the
second token as the offset: the replies differ from processing `u` with
offset 5 (they equal processing with offset 0, see the amended theorem),
because `int(parts[1])` is evaluated only when there are exactly two tokens. -/
theorem download_url_extra_tokens_counterexample :
    download_url extProbe "u 5 x" ≠
      Reply.text invalidFormatText :: toReplies (processFrom extProbe "u" 5) := by
  decide

/-- Claim C6 as amended: on a message with more than two whitespace tokens
the handler sends the validation-error reply and still proceeds, using the
first token as the URL — but with offset 0: the second token is ignored,
since the offset is parsed only when there are exactly two tokens. -/
theorem download_url_extra_tokens (ext : HandlerExt) (t : String)
    (h : (pySplit t).length > 2) :
    download_url ext t =
      Reply.text invalidFormatText ::
        toReplies (processFrom ext ((pySplit t).headD "") 0) := by
  unfold download_url toReplies
  rcases hp : pySplit t with _ | ⟨a, _ | ⟨b, _ | ⟨c, l⟩⟩⟩ <;> rw [hp] at h
  · simp at h
  · simp at h
  · simp at h
  · rw [if_pos h]
    have hbody : attemptBody ext (a :: b :: c :: l) = processFrom ext a 0 := rfl
    rw [hbody]
    simp

/-- Witness for the amended C6: on `u 5 x` with the observable externals,
the handler replies with the validation error, the download notice for `u`,
and the audio produced at offset 0. -/
theorem download_url_extra_tokens_case :
    download_url extProbe "u 5 x" =
      Reply.text invalidFormatText ::
        toReplies (processFrom extProbe "u" 0) :=
  download_url_extra_tokens extProbe "u 5 x" (by decide)

/-- Unfolding of the two-stage pipeline. -/
theorem pipeline_def (prepare : String → FPath) (fs : List FPath)
    (url : String) (n : Int) :
    pipeline prepare fs url n =
      ⟨(lower_pitch (download_audio prepare fs url).fs
          (download_audio prepare fs url).path n).path,
       (lower_pitch (download_audio prepare fs url).fs
          (download_audio prepare fs url).path n).fs,
       (download_audio prepare fs url).evs ++
         (lower_pitch (download_audio prepare fs url).fs
            (download_audio prepare fs url).path n).evs⟩ := rfl

/-- The zero-offset branch of the pitch stage, as an equation. -/
theorem lower_pitch_at_zero (fs : List FPath) (p : FPath) :
    lower_pitch fs p 0 = ⟨p, fs, []⟩ := rfl

/-- A pipeline run on a filesystem that already holds both artifacts only
probes: no transfer, no transform, no filesystem change. -/
theorem pipeline_second_run (prepare : String → FPath) (fs2 : List FPath)
    (url : String) (n : Int)
    (hf : mp3Filename prepare url ∈ fs2)
    (hout : n ≠ 0 → lowerPitchOutput (mp3Filename prepare url) n ∈ fs2) :
    pipeline prepare fs2 url n =
      ⟨if n = 0 then mp3Filename prepare url
        else lowerPitchOutput (mp3Filename prepare url) n,
       fs2, [Ev.probe url]⟩ := by
  rw [pipeline_def, download_audio_of_mem prepare fs2 url hf]
  dsimp only
  by_cases hn : n = 0
  · subst hn
    rw [lower_pitch_at_zero]
    simp
  · rw [lower_pitch_of_mem fs2 _ n hn (hout hn), if_neg hn]
    simp

/-- The first run leaves the downloaded `.mp3` on the filesystem. -/
theorem pipeline_mp3_mem (prepare : String → FPath) (fs : List FPath)
    (url : String) (n : Int) :
    mp3Filename prepare url ∈ (pipeline prepare fs url n).fs := by
  rw [pipeline_def]
  exact lower_pitch_mono _ _ _ _ (download_audio_mem prepare fs url)

/-- For a non-zero offset the first run leaves the tagged artifact on the
filesystem. -/
theorem pipeline_tagged_mem (prepare : String → FPath) (fs : List FPath)
    (url : String) (n : Int) (hn : n ≠ 0) :
    lowerPitchOutput (mp3Filename prepare url) n ∈
      (pipeline prepare fs url n).fs := by
  rw [pipeline_def]
  dsimp only
  rw [download_audio_path]
  have h := lower_pitch_path_mem (download_audio prepare fs url).fs
    (mp3Filename prepare url) n hn
  rwa [lower_pitch_path _ _ _ hn] at h

/-- The path returned by a pipeline run, by cases on the offset. -/
theorem pipeline_path_cases (prepare : String → FPath) (fs : List FPath)
    (url : String) (n : Int) :
    (pipeline prepare fs url n).path =
      if n = 0 then mp3Filename prepare url
      else lowerPitchOutput (mp3Filename prepare url) n := by
  rw [pipeline_def]
  by_cases hn : n = 0
  · subst hn
    rw [lower_pitch_at_zero, if_pos rfl]
    exact download_audio_path prepare fs url
  · rw [lower_pitch_path _ _ _ hn, download_audio_path, if_neg hn]

/-- Claim C4: invoking the pipeline a second time with the same URL and the
same offset yields the same output path, leaves the filesystem unchanged, and
performs only the metadata probe — no download transfer and no pitch-shift
computation, because both stages return early on the already-existing files
(the zero-offset pitch stage returns early unconditionally). -/
theorem pipeline_idempotent (prepare : String → FPath) (fs : List FPath)
    (url : String) (n : Int) :
    pipeline prepare (pipeline prepare fs url n).fs url n =
      ⟨(pipeline prepare fs url n).path, (pipeline prepare fs url n).fs,
        [Ev.probe url]⟩ := by
  rw [pipeline_second_run prepare (pipeline prepare fs url n).fs url n
      (pipeline_mp3_mem prepare fs url n)
      (fun hn => pipeline_tagged_mem prepare fs url n hn),
    ← pipeline_path_cases prepare fs url n]

end ToneShiftBot
